import Mathlib

/-!
Shallow embedding of the GOFRider rider client's order-status logic.

The definitions below are translated from the rider orders screen
(`RiderOrdersScreen`): the status lookup table `STATUS_MAP`, the
`getStatusInfo` describe function, the cancellation predicates, and the
event handlers `handleOrderAction`, `handleCancelOrder`, `verifyOTP`
and `updateOrderStatus`.  Stateful handlers are modelled as pure step
functions over an explicit screen state, with the gateway's outcome
passed in as an `Except` value and the issued gateway calls and alerts
returned explicitly.
-/

namespace GOFRider

/-- JavaScript's `String.prototype.toLowerCase()` on the ASCII statuses the
app handles: lower-case every character of the string. -/
def jsToLower (s : String) : String := ⟨s.data.map Char.toLower⟩

/-- The `StatusInfo` record computed by `getStatusInfo`:
`{label, color, action, nextStatus}`. -/
structure StatusInfo where
  label : String
  color : String
  action : String
  nextStatus : Option String
deriving DecidableEq, Repr

/-- Source: `const OTP_LENGTH = 4`. -/
def OTP_LENGTH : Nat := 4

/-- The `STATUS_MAP` record: keys are canonical lower-case status strings,
values the `StatusInfo` shown for them.  There is no entry for
`cancelled`. -/
def STATUS_MAP : List (String × StatusInfo) :=
  [ ("assigned", ⟨"Assigned", "#ff9800", "Mark as Picked", some "picked"⟩),
    ("pending", ⟨"Assigned", "#ff9800", "Mark as Picked", some "picked"⟩),
    ("picked", ⟨"Picked Up", "#2196f3", "Start Delivery", some "delivering"⟩),
    ("picked_up", ⟨"Picked Up", "#2196f3", "Start Delivery", some "delivering"⟩),
    ("delivering", ⟨"Delivering", "#9c27b0", "Complete Delivery", some "delivered"⟩),
    ("out_for_delivery", ⟨"Delivering", "#9c27b0", "Complete Delivery", some "delivered"⟩),
    ("delivered", ⟨"Delivered", "#4caf50", "Completed", none⟩) ]

/-- Source: `const CANCELLABLE_STATUSES = ['delivering']`. -/
def CANCELLABLE_STATUSES : List String := ["delivering"]

/-- Source: `const NON_CANCELLABLE_STATUSES = ['delivered', 'cancelled']`. -/
def NON_CANCELLABLE_STATUSES : List String := ["delivered", "cancelled"]

/-- Source: `ALERT_MESSAGES.OTP_VALIDATION`. -/
def OTP_VALIDATION_MESSAGE : String :=
  "Please enter a " ++ toString OTP_LENGTH ++ "-digit OTP code"

/-- Source: `ALERT_MESSAGES.STATUS_UPDATE_SUCCESS(status)`. -/
def STATUS_UPDATE_SUCCESS (status : String) : String :=
  "Order status updated to " ++ status

/-- Source: `ALERT_MESSAGES.STATUS_UPDATE_FAILED`. -/
def STATUS_UPDATE_FAILED : String := "Failed to update order status"

/-- Source: `ALERT_MESSAGES.ORDER_COMPLETED`. -/
def ORDER_COMPLETED : String := "This order is already completed."

/-- Source: `ALERT_MESSAGES.ORDER_NOT_CANCELLABLE`. -/
def ORDER_NOT_CANCELLABLE : String := "This order cannot be cancelled."

/-- Source: `ALERT_MESSAGES.OTP_VERIFICATION_SUCCESS`. -/
def OTP_VERIFICATION_SUCCESS : String := "Delivery completed successfully!"

/-- Source:
`getStatusInfo(status, fallbackColor)`: lower-case the input
(`status?.toLowerCase() || ''`), look it up in `STATUS_MAP`, and fall back
to `{label: status || 'Unknown', color: fallbackColor, action: 'View',
nextStatus: null}` when the key is absent.
-/
def getStatusInfo (status : String) (fallbackColor : String) : StatusInfo :=
  let statusKey := jsToLower status
  match STATUS_MAP.lookup statusKey with
  | some info => info
  | none =>
      { label := if status = "" then "Unknown" else status
        color := fallbackColor
        action := "View"
        nextStatus := none }

/-- The nested `order` object of a `RiderOrderAssignmentModel`:
only the fields the screen logic reads. -/
structure InnerOrder where
  id : Nat
  order_code : Option String
  status : Option String
  customer_name : Option String
deriving DecidableEq, Repr

/-- A `RiderOrderAssignmentModel` as used by the orders screen:
an assignment id, the backing `order_id`, the assignment-level status
string, and the nested order. -/
structure RiderOrderAssignmentModel where
  id : Nat
  order_id : Nat
  status : String
  order : InnerOrder
deriving DecidableEq, Repr

/-- Source: `getOrderStatus(order) = order.order?.status || order.status`:
the nested order's status when it is present and non-empty, otherwise the
assignment-level status. -/
def getOrderStatus (o : RiderOrderAssignmentModel) : String :=
  match o.order.status with
  | some s => if s = "" then o.status else s
  | none => o.status

/-- Source: `canCancelOrder(orderStatus)`: true iff the lower-cased status is not
in `NON_CANCELLABLE_STATUSES`. -/
def canCancelOrder (orderStatus : String) : Bool :=
  let statusLower := jsToLower orderStatus
  !(NON_CANCELLABLE_STATUSES.contains statusLower)

/-- Source: `shouldShowCancelButton(statusLabel)`: true iff some status in
`CANCELLABLE_STATUSES` has a `STATUS_MAP` entry with this label. -/
def shouldShowCancelButton (statusLabel : String) : Bool :=
  CANCELLABLE_STATUSES.any fun status =>
    match STATUS_MAP.lookup status with
    | some info => info.label == statusLabel
    | none => false

/-- The observable outcome of `handleOrderAction`: an informational
"already completed" alert, opening the OTP modal, or a confirmation
dialog whose Confirm button calls `updateOrderStatus(order, target)`. -/
inductive OrderActionOutcome where
  | infoCompleted
  | openOTP (order : RiderOrderAssignmentModel)
  | confirmDialog (action : String) (order : RiderOrderAssignmentModel) (target : String)
deriving DecidableEq, Repr

/-- Source:
`handleOrderAction(order)`: describe the order's status; with no
`nextStatus` show the "already completed" info alert; when the next status
is `'delivered'` open the OTP modal; otherwise show a confirmation dialog
that, on Confirm, calls `updateOrderStatus(order, statusInfo.nextStatus)`.
-/
def handleOrderAction (o : RiderOrderAssignmentModel) (fallbackColor : String) :
    OrderActionOutcome :=
  let orderStatus := getOrderStatus o
  let statusInfo := getStatusInfo orderStatus fallbackColor
  match statusInfo.nextStatus with
  | none => .infoCompleted
  | some next =>
      if next = "delivered" then .openOTP o
      else .confirmDialog statusInfo.action o next

/-- The observable outcome of `handleCancelOrder`: the "cannot be
cancelled" info alert, or a confirmation dialog whose destructive button
calls `updateOrderStatus(order, 'cancelled')`. -/
inductive CancelOutcome where
  | notCancellable
  | confirmCancelDialog (order : RiderOrderAssignmentModel) (target : String)
deriving DecidableEq, Repr

/-- Source: `handleCancelOrder(order)`: refuse when `canCancelOrder` is false,
otherwise show the cancel confirmation dialog targeting `'cancelled'`. -/
def handleCancelOrder (o : RiderOrderAssignmentModel) : CancelOutcome :=
  let orderStatus := getOrderStatus o
  if !(canCancelOrder orderStatus) then .notCancellable
  else .confirmCancelDialog o "cancelled"

/-- A status string is recognized when its lower-casing is a key of
`STATUS_MAP`. -/
def isRecognizedStatus (s : String) : Bool :=
  (STATUS_MAP.lookup (jsToLower s)).isSome

/-- A status string names a terminal state when it lower-cases to
`delivered` or `cancelled`. -/
def isTerminalStatus (s : String) : Bool :=
  jsToLower s == "delivered" || jsToLower s == "cancelled"

/-- The spec's `nextTransition`: the `nextStatus` field of the result of
`getStatusInfo` (the fallback color never influences it). -/
def nextTransition (s : String) : Option String :=
  (getStatusInfo s "").nextStatus

/-- Apply `nextTransition` successively `n` times starting from `s`,
failing as soon as there is no forward edge. -/
def iterateNext : Nat → String → Option String
  | 0, s => some s
  | n + 1, s =>
      match nextTransition s with
      | some t => iterateNext n t
      | none => none

/-!  Stateful handlers of the orders screen, as explicit step functions.
The screen's relevant `useState` pieces form `ScreenState`; a handler
takes the gateway's outcome for each request it may issue (`Except`,
mirroring the resolved/thrown promise) and returns the new state together
with the list of gateway calls it issued and the alerts it showed. -/

/-- The orders screen's state: the fetched orders list, the per-order
"currently updating" marker, and the OTP modal state. -/
structure ScreenState where
  orders : List RiderOrderAssignmentModel
  updatingOrderId : Option Nat
  showConfirmationModal : Bool
  confirmationCode : String
  currentOrder : Option RiderOrderAssignmentModel
deriving DecidableEq, Repr

/-- A request issued to the HTTP gateway (`ApiManager`). -/
inductive GatewayCall where
  | getOrdersCall
  | updateStatusCall (order_id : Nat) (status : String)
  | verifyOTPCall (order_id : Nat) (otp : String)
deriving DecidableEq, Repr

/-- An alert dialog shown to the rider. -/
inductive AlertMsg where
  | successAlert (msg : String)
  | errorAlert (msg : String)
deriving DecidableEq, Repr

/-- Result of one handler invocation: the new screen state, the gateway
calls issued (in order), and the alerts shown. -/
structure StepResult where
  state : ScreenState
  calls : List GatewayCall
  alerts : List AlertMsg
deriving DecidableEq, Repr

/-- Source: `fetchOrders(true)` as called after a mutation: issues the orders GET;
on success replaces `orders` with the response data, on a thrown error the
catch clause sets `orders` to `[]`. -/
def fetchOrders (st : ScreenState)
    (fetchResult : Except String (List RiderOrderAssignmentModel)) :
    ScreenState × List GatewayCall :=
  match fetchResult with
  | .ok data => ({ st with orders := data }, [.getOrdersCall])
  | .error _ => ({ st with orders := [] }, [.getOrdersCall])

/-- Source:
`updateOrderStatus(order, newStatus)`: return immediately when
`updatingOrderId === order.id`; otherwise set the marker, POST
`updateStatus`; on success alert success and refetch the list, on a thrown
error alert `error.message || STATUS_UPDATE_FAILED`; in both cases the
`finally` clause clears the marker.
-/
def updateOrderStatus (st : ScreenState) (order : RiderOrderAssignmentModel)
    (newStatus : String) (updateResult : Except String Unit)
    (fetchResult : Except String (List RiderOrderAssignmentModel)) : StepResult :=
  if st.updatingOrderId = some order.id then
    { state := st, calls := [], alerts := [] }
  else
    let st1 := { st with updatingOrderId := some order.id }
    match updateResult with
    | .ok _ =>
        let fetched := fetchOrders st1 fetchResult
        { state := { fetched.1 with updatingOrderId := none }
          calls := .updateStatusCall order.order_id newStatus :: fetched.2
          alerts := [.successAlert (STATUS_UPDATE_SUCCESS newStatus)] }
    | .error msg =>
        { state := { st1 with updatingOrderId := none }
          calls := [.updateStatusCall order.order_id newStatus]
          alerts := [.errorAlert (if msg = "" then STATUS_UPDATE_FAILED else msg)] }

/-- Source: `ALERT_MESSAGES.OTP_VERIFICATION_FAILED`. -/
def OTP_VERIFICATION_FAILED : String := "Invalid OTP. Please try again."

/-- Source: `closeOTPModal()`: hide the modal and clear the code and current
order. -/
def closeOTPModal (st : ScreenState) : ScreenState :=
  { st with showConfirmationModal := false, confirmationCode := ""
            currentOrder := none }

/-- Source:
`verifyOTP()`: return when there is no current order; reject locally with
a validation alert when `!confirmationCode || confirmationCode.length !==
OTP_LENGTH` (no request issued); otherwise set the marker, POST
`verifyOTP`; on success close the modal, alert success and refetch the
list, on a thrown error alert `error.message || OTP_VERIFICATION_FAILED`;
the `finally` clause clears the marker.
-/
def verifyOTP (st : ScreenState) (verifyResult : Except String Unit)
    (fetchResult : Except String (List RiderOrderAssignmentModel)) : StepResult :=
  match st.currentOrder with
  | none => { state := st, calls := [], alerts := [] }
  | some order =>
      if st.confirmationCode = "" ∨ st.confirmationCode.length ≠ OTP_LENGTH then
        { state := st, calls := []
          alerts := [.errorAlert OTP_VALIDATION_MESSAGE] }
      else
        let st1 := { st with updatingOrderId := some order.id }
        match verifyResult with
        | .ok _ =>
            let fetched := fetchOrders (closeOTPModal st1) fetchResult
            { state := { fetched.1 with updatingOrderId := none }
              calls := .verifyOTPCall order.order_id st.confirmationCode :: fetched.2
              alerts := [.successAlert OTP_VERIFICATION_SUCCESS] }
        | .error msg =>
            { state := { st1 with updatingOrderId := none }
              calls := [.verifyOTPCall order.order_id st.confirmationCode]
              alerts := [.errorAlert (if msg = "" then OTP_VERIFICATION_FAILED else msg)] }

/-- Source: `isVerifying`: `updatingOrderId === currentOrder?.id`. -/
def isVerifying (st : ScreenState) : Bool :=
  match st.currentOrder with
  | some o => st.updatingOrderId == some o.id
  | none => false

/-- Source: `isOTPComplete`: `confirmationCode.length === OTP_LENGTH`. -/
def isOTPComplete (st : ScreenState) : Bool :=
  st.confirmationCode.length == OTP_LENGTH

/-- Pressing the modal's Verify button: the button is rendered with
`disabled={isVerifying || !isOTPComplete}`, so the press is a no-op in
that case and runs `verifyOTP` otherwise. -/
def pressVerifyButton (st : ScreenState) (verifyResult : Except String Unit)
    (fetchResult : Except String (List RiderOrderAssignmentModel)) : StepResult :=
  if isVerifying st || !(isOTPComplete st) then
    { state := st, calls := [], alerts := [] }
  else verifyOTP st verifyResult fetchResult

/-- A concrete assignment whose effective status is `picked`. -/
def pickedOrder : RiderOrderAssignmentModel :=
  ⟨5, 10, "picked", ⟨10, some "ORD10", none, some "Asha"⟩⟩

/-- A concrete assignment whose effective status is `assigned`. -/
def assignedOrder : RiderOrderAssignmentModel :=
  ⟨6, 11, "assigned", ⟨11, some "ORD11", none, some "Dev"⟩⟩

/-- A concrete screen state sitting in the OTP modal with the two-digit
code `12` entered. -/
def shortCodeState : ScreenState :=
  ⟨[], none, true, "12", some pickedOrder⟩

/-- A concrete idle screen state: nothing updating, no modal. -/
def idleState : ScreenState :=
  ⟨[], none, false, "", none⟩

/-- A concrete screen state in which order id 5 is already updating. -/
def busyState : ScreenState :=
  ⟨[], some 5, false, "", none⟩

/-- Unfolding step for association-list lookup with string keys. -/
theorem lookup_cons_eq {α : Type} (k t : String) (v : α) (es : List (String × α)) :
    ((k, v) :: es).lookup t = if t = k then some v else es.lookup t := by
  simp only [List.lookup]
  by_cases h : t = k
  · have hb : (t == k) = true := by simp [h]
    simp [hb, h]
  · have hb : (t == k) = false := by simp [h]
    simp [hb, h]

/-- C1: `handleOrderAction` opens the OTP flow exactly when the order's
next status is `delivered`; every other forward transition gets only a
confirmation dialog whose Confirm proceeds to the status update with that
next status; with no next status it is an informational no-op. -/
theorem handleOrderAction_otp_gate (o : RiderOrderAssignmentModel) (c : String) :
    (handleOrderAction o c = .openOTP o ↔
      (getStatusInfo (getOrderStatus o) c).nextStatus = some "delivered") ∧
    (∀ next, (getStatusInfo (getOrderStatus o) c).nextStatus = some next →
      next ≠ "delivered" →
      handleOrderAction o c =
        .confirmDialog (getStatusInfo (getOrderStatus o) c).action o next) ∧
    ((getStatusInfo (getOrderStatus o) c).nextStatus = none →
      handleOrderAction o c = .infoCompleted) := by
  cases hn : (getStatusInfo (getOrderStatus o) c).nextStatus with
  | none => simp [handleOrderAction, hn]
  | some next =>
      by_cases hd : next = "delivered"
      · subst hd; simp [handleOrderAction, hn]
      · simp [handleOrderAction, hn, hd]

/-- Witness for C1: an order in status `picked` gets the confirmation
dialog targeting `delivering`, not the OTP modal. -/
theorem handleOrderAction_otp_gate_witness :
    handleOrderAction pickedOrder "c" =
      .confirmDialog "Start Delivery" pickedOrder "delivering" := by
  have h := (handleOrderAction_otp_gate pickedOrder "c").2.1 "delivering"
    (by decide) (by decide)
  rw [show (getStatusInfo (getOrderStatus pickedOrder) "c").action =
    "Start Delivery" from by decide] at h
  exact h

/-- C2: the forward chain is linear: `assigned → picked → delivering →
delivered`, reaching `delivered` in exactly 3 steps and not fewer, and the
next status assigned to a status string is unique (in particular it does
not depend on the fallback color). -/
theorem forward_chain_linear :
    (nextTransition "assigned" = some "picked" ∧
     nextTransition "picked" = some "delivering" ∧
     nextTransition "delivering" = some "delivered" ∧
     nextTransition "delivered" = none) ∧
    iterateNext 3 "assigned" = some "delivered" ∧
    (∀ k, k < 3 → iterateNext k "assigned" ≠ some "delivered") ∧
    (∀ s c c', (getStatusInfo s c).nextStatus = (getStatusInfo s c').nextStatus) := by
  refine ⟨by decide, by decide, by decide, ?_⟩
  intro s c c'
  unfold getStatusInfo
  cases hl : STATUS_MAP.lookup (jsToLower s) <;> simp [hl]

/-- Witness for C2: two steps from `assigned` do not reach `delivered`. -/
theorem forward_chain_linear_witness :
    iterateNext 2 "assigned" ≠ some "delivered" :=
  forward_chain_linear.2.2.1 2 (by decide)

/-- C3: for every input string, the described `nextStatus` is `null` iff
the status is terminal (`delivered` or `cancelled`, any casing) or the
string is unrecognized. -/
theorem nextStatus_none_iff (s c : String) :
    (getStatusInfo s c).nextStatus = none ↔
      (isTerminalStatus s = true ∨ isRecognizedStatus s = false) := by
  unfold getStatusInfo isTerminalStatus isRecognizedStatus
  simp only [STATUS_MAP, lookup_cons_eq]
  split_ifs with h1 h2 h3 h4 h5 h6 h7 <;> simp_all

/-- C4: `getStatusInfo` is case-insensitive on recognized statuses (the
fallback color argument is also immaterial there), and `PENDING` yields
label `Assigned` with next status `picked`. -/
theorem getStatusInfo_case_insensitive :
    (∀ s t c c', isRecognizedStatus s = true → jsToLower t = jsToLower s →
        getStatusInfo s c = getStatusInfo t c') ∧
    (∀ c, (getStatusInfo "PENDING" c).label = "Assigned" ∧
        (getStatusInfo "PENDING" c).nextStatus = some "picked") := by
  constructor
  · intro s t c c' hrec hlow
    unfold isRecognizedStatus at hrec
    unfold getStatusInfo
    rw [hlow]
    cases hl : STATUS_MAP.lookup (jsToLower s) with
    | some info => simp [hl]
    | none => rw [hl] at hrec; simp at hrec
  · intro c
    have hl : STATUS_MAP.lookup (jsToLower "PENDING") =
        some ⟨"Assigned", "#ff9800", "Mark as Picked", some "picked"⟩ := by decide
    simp [getStatusInfo, hl]

/-- Witness for C4: `pending` and `PENDING` describe identically. -/
theorem getStatusInfo_case_insensitive_witness :
    getStatusInfo "pending" "a" = getStatusInfo "PENDING" "b" :=
  getStatusInfo_case_insensitive.1 "pending" "PENDING" "a" "b" (by decide) (by decide)

/-- C5: cancellation is permitted from every status except `delivered`
and `cancelled` (unknown statuses included); from `assigned` the cancel
handler shows the confirmation dialog whose destructive button performs
the status update targeting `cancelled`, and that update posts
`updateStatus` with target `cancelled` — no confirmation-code step. -/
theorem canCancel_policy :
    (∀ s, canCancelOrder s = true ↔
        ¬(jsToLower s = "delivered" ∨ jsToLower s = "cancelled")) ∧
    (∀ o, getOrderStatus o = "assigned" →
        handleCancelOrder o = .confirmCancelDialog o "cancelled") ∧
    (∀ st o ur fr, st.updatingOrderId ≠ some o.id →
        (updateOrderStatus st o "cancelled" ur fr).calls.head? =
          some (.updateStatusCall o.order_id "cancelled")) := by
  refine ⟨?_, ?_, ?_⟩
  · intro s
    simp [canCancelOrder, NON_CANCELLABLE_STATUSES, List.contains]
  · intro o h
    have hc : canCancelOrder "assigned" = true := by decide
    simp [handleCancelOrder, h, hc]
  · intro st o ur fr h
    cases ur with
    | ok _ => cases fr <;> simp [updateOrderStatus, h, fetchOrders]
    | error msg => simp [updateOrderStatus, h]

/-- Witness for C5: cancelling an order in status `assigned` yields the
cancel dialog targeting `cancelled`. -/
theorem canCancel_policy_witness :
    handleCancelOrder assignedOrder = .confirmCancelDialog assignedOrder "cancelled" :=
  canCancel_policy.2.1 assignedOrder (by decide)

/-- C6: a confirmation-code submission whose code is not exactly
`OTP_LENGTH` digits is rejected locally with the validation alert and
issues no gateway call; a `verifyOTP` request goes out only when the code
has length exactly `OTP_LENGTH`. -/
theorem verifyOTP_length_gate (st : ScreenState) (ord : RiderOrderAssignmentModel)
    (vr : Except String Unit) (fr : Except String (List RiderOrderAssignmentModel)) :
    (st.currentOrder = some ord → st.confirmationCode.length ≠ OTP_LENGTH →
        verifyOTP st vr fr = ⟨st, [], [.errorAlert OTP_VALIDATION_MESSAGE]⟩) ∧
    ((verifyOTP st vr fr).calls ≠ [] → st.confirmationCode.length = OTP_LENGTH) := by
  constructor
  · intro hcur hlen
    simp [verifyOTP, hcur, hlen]
  · intro hcalls
    unfold verifyOTP at hcalls
    cases hco : st.currentOrder with
    | none => rw [hco] at hcalls; simp at hcalls
    | some ord' =>
        rw [hco] at hcalls
        by_cases hv : st.confirmationCode = "" ∨ st.confirmationCode.length ≠ OTP_LENGTH
        · simp [hv] at hcalls
        · push_neg at hv
          exact hv.2

/-- Witness for C6: submitting the two-digit code `12` produces the
validation alert and issues no gateway call. -/
theorem verifyOTP_length_gate_witness :
    verifyOTP shortCodeState (.ok ()) (.ok []) =
      ⟨shortCodeState, [], [.errorAlert OTP_VALIDATION_MESSAGE]⟩ :=
  (verifyOTP_length_gate shortCodeState pickedOrder (.ok ()) (.ok [])).1
    (by decide) (by decide)

/-- C7: on any unrecognized input (the empty string included) the
describe function returns `{label: input or Unknown when empty, the
fallback color, action View, nextStatus null}` — in particular it is a
total deterministic function of its two string arguments. -/
theorem getStatusInfo_unrecognized (s c : String)
    (h : isRecognizedStatus s = false) :
    getStatusInfo s c =
      ⟨if s = "" then "Unknown" else s, c, "View", none⟩ := by
  unfold isRecognizedStatus at h
  unfold getStatusInfo
  cases hl : STATUS_MAP.lookup (jsToLower s) with
  | some info => rw [hl] at h; simp at h
  | none => simp [hl]

/-- Witness for C7: the empty input maps to the `Unknown` fallback. -/
theorem getStatusInfo_unrecognized_witness :
    getStatusInfo "" "#abc" = ⟨"Unknown", "#abc", "View", none⟩ := by
  have h := getStatusInfo_unrecognized "" "#abc" (by decide)
  exact h.trans (by decide)

/-- C8: a failed status update is atomic for the displayed state: the
orders list is unchanged, exactly the one failing gateway call was issued
(no retry, no refetch), an error alert is surfaced and the updating marker
is cleared; the orders list is replaced only by a successful refetch. -/
theorem updateOrderStatus_failure_atomic (st : ScreenState)
    (ord : RiderOrderAssignmentModel) (ns msg : String)
    (fr : Except String (List RiderOrderAssignmentModel))
    (h : st.updatingOrderId ≠ some ord.id) :
    (updateOrderStatus st ord ns (.error msg) fr).state.orders = st.orders ∧
    (updateOrderStatus st ord ns (.error msg) fr).calls =
      [.updateStatusCall ord.order_id ns] ∧
    (updateOrderStatus st ord ns (.error msg) fr).alerts =
      [.errorAlert (if msg = "" then STATUS_UPDATE_FAILED else msg)] ∧
    (updateOrderStatus st ord ns (.error msg) fr).state.updatingOrderId = none ∧
    (∀ data, (updateOrderStatus st ord ns (.ok ()) (.ok data)).state.orders = data) := by
  refine ⟨?_, ?_, ?_, ?_, ?_⟩ <;> simp [updateOrderStatus, h, fetchOrders]

/-- Witness for C8: a concrete failing update leaves the (empty) orders
list untouched. -/
theorem updateOrderStatus_failure_atomic_witness :
    (updateOrderStatus idleState pickedOrder "delivering" (.error "boom")
        (.ok [])).state.orders = idleState.orders :=
  (updateOrderStatus_failure_atomic idleState pickedOrder "delivering" "boom"
    (.ok []) (by decide)).1

/-- C9: while the updating marker holds an order's id, a repeated
submission for that order is a no-op issuing no gateway call (the update
handler returns immediately; the OTP verify button is disabled), and
whenever a handler did issue a request the marker is cleared once it
settles, success or failure alike. -/
theorem single_inflight_marker (st : ScreenState) (ord : RiderOrderAssignmentModel)
    (ns : String) (ur vr : Except String Unit)
    (fr : Except String (List RiderOrderAssignmentModel)) :
    (st.updatingOrderId = some ord.id →
        updateOrderStatus st ord ns ur fr = ⟨st, [], []⟩) ∧
    ((updateOrderStatus st ord ns ur fr).calls ≠ [] →
        (updateOrderStatus st ord ns ur fr).state.updatingOrderId = none) ∧
    (st.currentOrder = some ord → st.updatingOrderId = some ord.id →
        pressVerifyButton st vr fr = ⟨st, [], []⟩) ∧
    ((pressVerifyButton st vr fr).calls ≠ [] →
        (pressVerifyButton st vr fr).state.updatingOrderId = none) := by
  refine ⟨?_, ?_, ?_, ?_⟩
  · intro h
    simp [updateOrderStatus, h]
  · intro h
    by_cases hg : st.updatingOrderId = some ord.id
    · simp [updateOrderStatus, hg] at h
    · cases ur with
      | ok _ => cases fr <;> simp [updateOrderStatus, hg, fetchOrders]
      | error msg => simp [updateOrderStatus, hg]
  · intro hc hm
    have hv : isVerifying st = true := by simp [isVerifying, hc, hm]
    simp [pressVerifyButton, hv]
  · intro h
    by_cases hd : (isVerifying st || !(isOTPComplete st)) = true
    · simp [pressVerifyButton, hd] at h
    · rw [pressVerifyButton, if_neg (by simp_all)] at *
      cases hco : st.currentOrder with
      | none => simp [verifyOTP, hco] at h
      | some ord' =>
          by_cases hvv : st.confirmationCode = "" ∨ st.confirmationCode.length ≠ OTP_LENGTH
          · simp [verifyOTP, hco, hvv] at h
          · cases vr with
            | ok _ => cases fr <;> simp [verifyOTP, hco, hvv, fetchOrders, closeOTPModal]
            | error msg => simp [verifyOTP, hco, hvv]

/-- Witness for C9: a second submission for the order already marked as
updating returns immediately with no gateway call. -/
theorem single_inflight_marker_witness :
    updateOrderStatus busyState pickedOrder "delivering" (.ok ()) (.ok []) =
      ⟨busyState, [], []⟩ :=
  (single_inflight_marker busyState pickedOrder "delivering" (.ok ()) (.ok ())
    (.ok [])).1 (by decide)

/-- C10: `cancelled` has no `STATUS_MAP` entry, so any casing of it takes
the unrecognized-status branch: label is the raw input string, action is
`View`, color is the fallback color and `nextStatus` is `null`. -/
theorem getStatusInfo_cancelled (s c : String)
    (h : jsToLower s = "cancelled") :
    getStatusInfo s c = ⟨s, c, "View", none⟩ := by
  have hs : s ≠ "" := by
    intro he
    subst he
    simp [jsToLower] at h
  unfold getStatusInfo
  rw [h]
  have hl : STATUS_MAP.lookup "cancelled" = none := by decide
  simp [hl, hs]

/-- Witness for C10: upper-case `CANCELLED` renders with its raw casing,
the fallback color and no next status. -/
theorem getStatusInfo_cancelled_witness :
    getStatusInfo "CANCELLED" "#999" = ⟨"CANCELLED", "#999", "View", none⟩ :=
  getStatusInfo_cancelled "CANCELLED" "#999" (by decide)

end GOFRider
